import Mathlib

/-!
Verification of the OSMod comment-moderation frontend:
a shallow embedding of the data service and realtime notifier
(packages/frontend-web/src/app/platform/dataService.ts) and of the
frontend article model, with theorems checking the natural-language
specification against that embedding.
-/

namespace Osmod

/-! ## Strings and service URLs -/

/-- JS String.prototype.startsWith, expressed on the underlying character lists. -/
def strStartsWith (s p : String) : Bool :=
  p.data.isPrefixOf s.data

/-- Base REST API path. -/
def REST_URL : String := "/rest"

/-- Base services API path. -/
def SERVICES_URL : String := "/services"

/-- serializeParams: null params give the empty string; present params give a
leading question mark followed by the serialized query (the qs library that
renders the query is external and modelled as an already-serialized string). -/
def serializeParams : Option String → String
  | none => ""
  | some q => "?" ++ q

/-- serviceURL from dataService.ts.  apiUrl stands for the configured API_URL. -/
def serviceURL (apiUrl service : String) (path : Option String) (params : Option String) : String :=
  apiUrl ++ SERVICES_URL ++ "/" ++ service ++ path.getD "" ++ serializeParams params

/-- The regex replace of a leading "http" by "ws" used when opening the
notifier socket: url.replace of the anchored pattern http with ws. -/
def replaceHttpWs (url : String) : String :=
  if strStartsWith url "http" then String.mk ("ws".data ++ url.data.drop 4) else url

/-- The URL the notifier connects to: the updates/summary service URL carrying
the stored token as the token query parameter, scheme rewritten to ws(s). -/
def connectionURL (apiUrl token : String) : String :=
  replaceHttpWs (serviceURL apiUrl ("updates/summary/?token=" ++ token) none none)

/-! ## Realtime notifier state machine -/

/-- The module-level notifier flags of dataService.ts
(gotSystem, gotArticles, gotUser, socketUp). -/
structure NotifierState where
  gotSystem : Bool
  gotArticles : Bool
  gotUser : Bool
  socketUp : Bool
deriving DecidableEq

/-- All flags start false when the module loads. -/
def initialNotifier : NotifierState := ⟨false, false, false, false⟩

/-- Statuses reported to the websocketStateHandler. -/
inductive Signal where
  | statusUp
  | statusDown
  | statusReset
deriving DecidableEq

/-- The data handlers an incoming message can be dispatched to. -/
inductive HandlerCall where
  | systemData
  | allArticles
  | perUser
  | articleUpdate
deriving DecidableEq

/-- Result of one run of the ws.onmessage handler: the new flag state, the
statuses signalled to the websocketStateHandler, and the data handlers called. -/
structure StepOut where
  state : NotifierState
  signals : List Signal
  handlers : List HandlerCall
deriving DecidableEq

/-- ws.onmessage from connectNotifier: dispatch on body.type, setting the
matching got-flag, then signal STATUS_UP once all three flags hold and the
socket was not already marked up. -/
def onMessage (s : NotifierState) (ty : String) : StepOut :=
  let out :=
    if ty = "system" then ({ s with gotSystem := true }, [HandlerCall.systemData])
    else if ty = "global" then ({ s with gotArticles := true }, [HandlerCall.allArticles])
    else if ty = "user" then ({ s with gotUser := true }, [HandlerCall.perUser])
    else if ty = "article-update" then (s, [HandlerCall.articleUpdate])
    else (s, ([] : List HandlerCall))
  if out.1.gotSystem && out.1.gotArticles && out.1.gotUser && !out.1.socketUp then
    ⟨{ out.1 with socketUp := true }, [Signal.statusUp], out.2⟩
  else
    ⟨out.1, [], out.2⟩

/-- Result of one run of the ws.onclose handler: the new flag state, the single
status signalled, and whether the ws reference was set to null. -/
structure CloseOut where
  state : NotifierState
  signal : Signal
  wsCleared : Bool
deriving DecidableEq

/-- ws.onclose from connectNotifier: code 1005 signals STATUS_RESET and
returns early; otherwise socketUp is cleared, STATUS_RESET is signalled when
no system, global or user message was ever received and STATUS_DOWN
otherwise, and the ws reference is set to null. -/
def onClose (s : NotifierState) (code : Nat) : CloseOut :=
  if code = 1005 then ⟨s, Signal.statusReset, false⟩
  else
    let s1 := { s with socketUp := false }
    if !s1.gotSystem && !s1.gotArticles && !s1.gotUser then ⟨s1, Signal.statusReset, true⟩
    else ⟨s1, Signal.statusDown, true⟩

/-- An event on the notifier socket: an incoming message of a given type, or a
close with a given code. -/
inductive NotifierEvent where
  | msg (ty : String)
  | close (code : Nat)
deriving DecidableEq

/-- One socket event processed by the installed handlers. -/
def step (s : NotifierState) : NotifierEvent → StepOut
  | NotifierEvent.msg ty => onMessage s ty
  | NotifierEvent.close code =>
      let o := onClose s code
      ⟨o.state, [o.signal], []⟩

/-- The statuses signalled while processing the i-th event of a trace that
starts in state s. -/
def signalsAt (s : NotifierState) : List NotifierEvent → Nat → List Signal
  | [], _ => []
  | e :: _, 0 => (step s e).signals
  | e :: es, i + 1 => signalsAt (step s e).state es i

/-- Whether the i-th event of a trace is a socket close. -/
def isCloseAt (es : List NotifierEvent) (i : Nat) : Bool :=
  match i, es with
  | _, [] => false
  | 0, NotifierEvent.close _ :: _ => true
  | 0, NotifierEvent.msg _ :: _ => false
  | i + 1, _ :: tl => isCloseAt tl i

/-- A sample socket trace: the three data messages, a close, and a further
message after the reconnect. -/
def demoTrace : List NotifierEvent :=
  [NotifierEvent.msg "system", NotifierEvent.msg "global", NotifierEvent.msg "user",
   NotifierEvent.close 1000, NotifierEvent.msg "article-update"]

/-- Whether the trace contains a message of the given type. -/
def hasMsg (ty : String) (es : List NotifierEvent) : Bool :=
  es.any fun e =>
    match e with
    | NotifierEvent.msg t => t == ty
    | NotifierEvent.close _ => false

/-! ## Connection liveness loop (connectNotifier / disconnectNotifier) -/

/-- WebSocket ready states. -/
inductive WSReadyState where
  | connecting
  | opened
  | closing
  | closed
deriving DecidableEq

/-- The browser socket object, reduced to the fields the notifier reads. -/
structure WSocket where
  url : String
  readyState : WSReadyState
deriving DecidableEq

/-- A freshly constructed socket: new myws(url) starts in CONNECTING state. -/
def newSocket (apiUrl token : String) : WSocket :=
  ⟨connectionURL apiUrl token, WSReadyState.connecting⟩

/-- The module-level connection bookkeeping: the ws reference (null or a
socket) and the registered interval timer period, if any. -/
structure ConnState where
  ws : Option WSocket
  intervalPeriodMs : Option Nat
deriving DecidableEq

/-- The condition of checkSocketAlive: no socket, or its readyState is not OPEN. -/
def socketNeedsConnect (s : ConnState) : Bool :=
  match s.ws with
  | none => true
  | some w => w.readyState != WSReadyState.opened

/-- checkSocketAlive: when the socket is absent or not OPEN, open a fresh
authenticated socket; otherwise leave the state alone. -/
def checkSocketAlive (apiUrl token : String) (s : ConnState) : ConnState :=
  if socketNeedsConnect s then { s with ws := some (newSocket apiUrl token) } else s

/-- connectNotifier: run checkSocketAlive immediately, then register the
10000 ms liveness interval. -/
def connectNotifier (apiUrl token : String) (s : ConnState) : ConnState :=
  let s1 := checkSocketAlive apiUrl token s
  { s1 with intervalPeriodMs := some 10000 }

/-- One firing of the registered interval: it runs checkSocketAlive; once the
interval has been cleared nothing fires. -/
def intervalTick (apiUrl token : String) (s : ConnState) : ConnState :=
  match s.intervalPeriodMs with
  | some _ => checkSocketAlive apiUrl token s
  | none => s

/-- ws.close on a socket object. -/
def closeSocket (w : WSocket) : WSocket :=
  { w with readyState := WSReadyState.closed }

/-- disconnectNotifier: clear the interval timer and close the socket. -/
def disconnectNotifier (s : ConnState) : ConnState :=
  { s with intervalPeriodMs := none, ws := s.ws.map closeSocket }

/-! ## Batch comment actions -/

/-- HTTP methods used by the data service. -/
inductive HttpMethod where
  | get
  | post
  | patch
  | del
deriving DecidableEq

/-- A POST issued by makeCommentAction: its URL, the id payload, and the
runImmediately flag. -/
structure ActionRequest where
  method : HttpMethod
  url : String
  data : List String
  runImmediately : Bool
deriving DecidableEq

/-- makeCommentAction: an empty id list returns without any request;
otherwise one POST to the commentActions service carrying all the ids. -/
def makeCommentAction (apiUrl path : String) (ids : List String) : Option ActionRequest :=
  if ids.length ≤ 0 then none
  else some ⟨HttpMethod.post, serviceURL apiUrl "commentActions" (some path) none, ids, true⟩

/-- highlightCommentsRequest. -/
def highlightCommentsRequest (apiUrl : String) (ids : List String) : Option ActionRequest :=
  makeCommentAction apiUrl "/highlight" ids

/-- resetCommentsRequest. -/
def resetCommentsRequest (apiUrl : String) (ids : List String) : Option ActionRequest :=
  makeCommentAction apiUrl "/reset" ids

/-- approveCommentsRequest. -/
def approveCommentsRequest (apiUrl : String) (ids : List String) : Option ActionRequest :=
  makeCommentAction apiUrl "/approve" ids

/-- approveFlagsAndCommentsRequest. -/
def approveFlagsAndCommentsRequest (apiUrl : String) (ids : List String) : Option ActionRequest :=
  makeCommentAction apiUrl "/approve-flags" ids

/-- resolveFlagsRequest. -/
def resolveFlagsRequest (apiUrl : String) (ids : List String) : Option ActionRequest :=
  makeCommentAction apiUrl "/resolve-flags" ids

/-- deferCommentsRequest. -/
def deferCommentsRequest (apiUrl : String) (ids : List String) : Option ActionRequest :=
  makeCommentAction apiUrl "/defer" ids

/-- rejectCommentsRequest. -/
def rejectCommentsRequest (apiUrl : String) (ids : List String) : Option ActionRequest :=
  makeCommentAction apiUrl "/reject" ids

/-- rejectFlagsAndCommentsRequest. -/
def rejectFlagsAndCommentsRequest (apiUrl : String) (ids : List String) : Option ActionRequest :=
  makeCommentAction apiUrl "/reject-flags" ids

/-- tagCommentsRequest. -/
def tagCommentsRequest (apiUrl : String) (ids : List String) (tagId : String) : Option ActionRequest :=
  makeCommentAction apiUrl ("/tag/" ++ tagId) ids

/-- tagCommentSummaryScoresRequest. -/
def tagCommentSummaryScoresRequest (apiUrl : String) (ids : List String) (tagId : String) : Option ActionRequest :=
  makeCommentAction apiUrl ("/tagCommentSummaryScores/" ++ tagId) ids

/-- The requests issued by the ten batch comment-action entry points of the
data service, at a given id list and tag id. -/
def commentActionRequests (apiUrl : String) (ids : List String) (tagId : String) :
    List (Option ActionRequest) :=
  [highlightCommentsRequest apiUrl ids,
   resetCommentsRequest apiUrl ids,
   approveCommentsRequest apiUrl ids,
   approveFlagsAndCommentsRequest apiUrl ids,
   resolveFlagsRequest apiUrl ids,
   deferCommentsRequest apiUrl ids,
   rejectCommentsRequest apiUrl ids,
   rejectFlagsAndCommentsRequest apiUrl ids,
   tagCommentsRequest apiUrl ids tagId,
   tagCommentSummaryScoresRequest apiUrl ids tagId]

/-- The commentActions service paths the ten batch entry points use. -/
def commentActionPaths (tagId : String) : List String :=
  ["/highlight", "/reset", "/approve", "/approve-flags", "/resolve-flags",
   "/defer", "/reject", "/reject-flags", "/tag/" ++ tagId,
   "/tagCommentSummaryScores/" ++ tagId]

/-! ## Model CRUD with name validation -/

/-- The nine valid model names of IValidModelNames / VALID_MODEL_NAMES_LOOKUP. -/
def VALID_MODEL_NAMES : List String :=
  ["articles", "categories", "comment_scores", "comments", "moderation_rules",
   "preselects", "tagging_sensitivities", "tags", "users"]

/-- validateModelName: an unknown model name throws before anything else runs. -/
def validateModelName (name : String) : Except String Unit :=
  if VALID_MODEL_NAMES.contains name then Except.ok ()
  else Except.error ("Tried to perform a task on a model named " ++ name ++
    " which was not in the list of valid values. Might be an attempted exploit.")

/-- A model CRUD request: method, URL and the attribute payload. -/
structure ModelRequest where
  method : HttpMethod
  url : String
  attrs : List (String × String)
deriving DecidableEq

/-- listURL: validate the model name, then the REST collection URL. -/
def listURL (apiUrl ty : String) (params : Option String) : Except String String :=
  (validateModelName ty).map fun _ =>
    apiUrl ++ REST_URL ++ "/" ++ ty ++ serializeParams params

/-- modelURL: validate the model name, then the single-model URL built on the
parameterless listURL. -/
def modelURL (apiUrl ty id : String) (params : Option String) : Except String String :=
  (validateModelName ty).bind fun _ =>
    (listURL apiUrl ty none).map fun base => base ++ "/" ++ id ++ serializeParams params

/-- The fromJS(model).delete of the id key: drop the id attribute. -/
def dropIdAttr (model : List (String × String)) : List (String × String) :=
  model.filter fun kv => kv.fst != "id"

/-- lodash pick: keep only the attributes whose key is among the given names. -/
def pickAttrs (attrs : List (String × String)) (keys : List String) : List (String × String) :=
  attrs.filter fun kv => keys.contains kv.fst

/-- createModel: validate the name, then POST the id-less attributes to the
collection URL. -/
def createModel (apiUrl ty : String) (model : List (String × String)) :
    Except String ModelRequest :=
  (validateModelName ty).bind fun _ =>
    (listURL apiUrl ty none).map fun url => ⟨HttpMethod.post, url, dropIdAttr model⟩

/-- updateModel: validate the name, restrict the id-less attributes to
onlyAttributes when given, then PATCH the model URL. -/
def updateModel (apiUrl ty id : String) (model : List (String × String))
    (onlyAttributes : Option (List String)) : Except String ModelRequest :=
  (validateModelName ty).bind fun _ =>
    let attributes := dropIdAttr model
    let attributes :=
      match onlyAttributes with
      | some keys => pickAttrs attributes keys
      | none => attributes
    (modelURL apiUrl ty id none).map fun url => ⟨HttpMethod.patch, url, attributes⟩

/-- destroyModel: validate the name, then DELETE the model URL. -/
def destroyModel (apiUrl ty id : String) : Except String ModelRequest :=
  (validateModelName ty).bind fun _ =>
    (modelURL apiUrl ty id none).map fun url => ⟨HttpMethod.del, url, []⟩

/-- Whether a CRUD call got as far as issuing an HTTP request. -/
def issuesRequest (r : Except String ModelRequest) : Bool :=
  match r with
  | Except.ok _ => true
  | Except.error _ => false

/-! ## The frontend article model -/

/-- An article record with the fields of IArticleAttributes; a null url is
represented by none. -/
structure ArticleRec where
  id : String
  sourceCreatedAt : String
  updatedAt : String
  title : String
  text : String
  url : Option String
  categoryId : String
  allCount : Nat
  unprocessedCount : Nat
  unmoderatedCount : Nat
  moderatedCount : Nat
  deferredCount : Nat
  approvedCount : Nat
  highlightedCount : Nat
  rejectedCount : Nat
  flaggedCount : Nat
  batchedCount : Nat
  automatedCount : Nat
  lastModeratedAt : String
  assignedModerators : List String
  isCommentingEnabled : Bool
  isAutoModerated : Bool
deriving DecidableEq

/-- ArticleModel from models/article.ts: when the url is truthy (present and
non-empty) but starts with neither http:// nor https://, it is nulled for
security; everything else is passed through unchanged. -/
def ArticleModel (a : ArticleRec) : ArticleRec :=
  match a.url with
  | some u =>
      if u != "" then
        if !strStartsWith u "http://" && !strStartsWith u "https://" then
          { a with url := none }
        else a
      else a
  | none => a

/-- A sample article record with an unsafe url. -/
def demoArticle : ArticleRec :=
  ⟨"1", "2019-01-01", "2019-01-02", "Title", "Text", some "javascript:alert(1)", "7",
   0, 0, 0, 0, 0, 0, 0, 0, 0, 0, 0, "2019-01-03", [], true, false⟩

/-- A sample article record with a safe https url. -/
def demoArticleSafe : ArticleRec :=
  ⟨"2", "2019-01-01", "2019-01-02", "Title", "Text", some "https://example.com/a", "7",
   0, 0, 0, 0, 0, 0, 0, 0, 0, 0, 0, "2019-01-03", [], true, false⟩

/-! ## Article comment counts (spec-modelled) -/

/-- Modelled from the spec: the backend code that maintains the per-article
comment counts is not among the sources (only the IArticleAttributes count
fields are).  Following the spec sentence that Article counts must equal the
sum of Comment states in that article, a comment carries one moderation
state, plus the flagged, batched and automated facets that have their own
counts. -/
inductive CommentState where
  | unprocessed
  | unmoderated
  | approved
  | rejected
  | deferred
  | highlighted
deriving DecidableEq

/-- Modelled from the spec: a comment of an article, as far as the article
counts observe it. -/
structure ModComment where
  state : CommentState
  flagged : Bool
  batched : Bool
  automated : Bool
deriving DecidableEq

/-- A comment counts as moderated once it has one of the decided states. -/
def stateModerated : CommentState → Bool
  | CommentState.approved => true
  | CommentState.rejected => true
  | CommentState.deferred => true
  | CommentState.highlighted => true
  | _ => false

/-- The count fields of IArticleAttributes. -/
inductive CountKind where
  | all
  | unprocessed
  | unmoderated
  | moderated
  | deferred
  | approved
  | highlighted
  | rejected
  | flagged
  | batched
  | automated
deriving DecidableEq

/-- Whether a comment contributes to a given count field. -/
def countPred : CountKind → ModComment → Bool
  | CountKind.all, _ => true
  | CountKind.unprocessed, c => c.state == CommentState.unprocessed
  | CountKind.unmoderated, c => c.state == CommentState.unmoderated
  | CountKind.moderated, c => stateModerated c.state
  | CountKind.deferred, c => c.state == CommentState.deferred
  | CountKind.approved, c => c.state == CommentState.approved
  | CountKind.highlighted, c => c.state == CommentState.highlighted
  | CountKind.rejected, c => c.state == CommentState.rejected
  | CountKind.flagged, c => c.flagged
  | CountKind.batched, c => c.batched
  | CountKind.automated, c => c.automated

/-- The counts derived from the actual comment list: the number of the
article's comments in the corresponding state. -/
def countsOf (cs : List ModComment) (k : CountKind) : Nat :=
  cs.countP (countPred k)

/-- An article together with its stored (incrementally maintained) counts. -/
structure ArticleCountsState where
  comments : List ModComment
  counts : CountKind → Nat

/-- Add one comment contribution to the stored counts. -/
def addContrib (f : CountKind → Nat) (c : ModComment) : CountKind → Nat :=
  fun k => f k + (if countPred k c then 1 else 0)

/-- Remove one comment contribution from the stored counts. -/
def subContrib (f : CountKind → Nat) (c : ModComment) : CountKind → Nat :=
  fun k => f k - (if countPred k c then 1 else 0)

/-- Modelled from the spec: the backend transitions that touch an article,
each keeping the stored counts incrementally in sync — a new comment arrives,
or an existing comment changes state (a moderation decision, flag resolution,
rescoring and so on). -/
inductive ArticleEvolves : ArticleCountsState → ArticleCountsState → Prop
  | newComment (s : ArticleCountsState) (c : ModComment) :
      ArticleEvolves s ⟨c :: s.comments, addContrib s.counts c⟩
  | setComment (s : ArticleCountsState) (i : Nat) (c : ModComment)
      (h : i < s.comments.length) :
      ArticleEvolves s
        ⟨s.comments.set i c, subContrib (addContrib s.counts c) (s.comments.get ⟨i, h⟩)⟩

/-- The reachable article states: empty with zero counts, closed under the
evolution steps. -/
inductive ReachableArticle : ArticleCountsState → Prop
  | init : ReachableArticle ⟨[], fun _ => 0⟩
  | step (s t : ArticleCountsState) :
      ReachableArticle s → ArticleEvolves s t → ReachableArticle t

/-- A sample reachable article state: one freshly arrived comment. -/
def demoArticleState : ArticleCountsState :=
  ⟨[⟨CommentState.unprocessed, false, false, false⟩],
   addContrib (fun _ => 0) ⟨CommentState.unprocessed, false, false, false⟩⟩

/-! ## Notifier state-machine lemmas -/

theorem step_msg (s : NotifierState) (ty : String) :
    step s (NotifierEvent.msg ty) = onMessage s ty := rfl

theorem step_close (s : NotifierState) (c : Nat) :
    step s (NotifierEvent.close c) = ⟨(onClose s c).state, [(onClose s c).signal], []⟩ := rfl

theorem onClose_signal_ne_up (s : NotifierState) (c : Nat) :
    (onClose s c).signal ≠ Signal.statusUp := by
  obtain ⟨gS, gA, gU, sU⟩ := s
  by_cases hc : c = 1005 <;> cases gS <;> cases gA <;> cases gU <;> simp [onClose, hc]

theorem onClose_state (s : NotifierState) (c : Nat) (hc : c ≠ 1005) :
    (onClose s c).state = { s with socketUp := false } := by
  obtain ⟨gS, gA, gU, sU⟩ := s
  cases gS <;> cases gA <;> cases gU <;> simp [onClose, hc]

theorem onClose_state_1005 (s : NotifierState) : (onClose s 1005).state = s := rfl

theorem up_mem_step (s : NotifierState) (e : NotifierEvent)
    (h : Signal.statusUp ∈ (step s e).signals) :
    (step s e).state.socketUp = true ∧ (step s e).state.gotSystem = true ∧
    (step s e).state.gotArticles = true ∧ (step s e).state.gotUser = true := by
  cases e with
  | close c =>
    rw [step_close] at h
    simp at h
    exact absurd h.symm (onClose_signal_ne_up s c)
  | msg ty =>
    rw [step_msg] at h ⊢
    by_cases h1 : ty = "system" <;> by_cases h2 : ty = "global" <;>
      by_cases h3 : ty = "user" <;> by_cases h4 : ty = "article-update" <;>
      simp_all [onMessage] <;> split_ifs at h ⊢ <;> simp_all

theorem step_state_flags (s : NotifierState) (e : NotifierEvent) :
    ((step s e).state.gotSystem = true → s.gotSystem = true ∨ e = NotifierEvent.msg "system") ∧
    ((step s e).state.gotArticles = true → s.gotArticles = true ∨ e = NotifierEvent.msg "global") ∧
    ((step s e).state.gotUser = true → s.gotUser = true ∨ e = NotifierEvent.msg "user") := by
  cases e with
  | close c =>
    by_cases hc : c = 1005 <;>
      simp [step_close, onClose_state, hc, onClose_state_1005]
  | msg ty =>
    rw [step_msg]
    by_cases h1 : ty = "system" <;> by_cases h2 : ty = "global" <;>
      by_cases h3 : ty = "user" <;> by_cases h4 : ty = "article-update" <;>
      simp_all [onMessage] <;> split_ifs <;> simp_all

theorem step_msg_socketUp (s : NotifierState) (ty : String) (h : s.socketUp = true) :
    (step s (NotifierEvent.msg ty)).state.socketUp = true := by
  rw [step_msg]
  by_cases h1 : ty = "system" <;> by_cases h2 : ty = "global" <;>
    by_cases h3 : ty = "user" <;> by_cases h4 : ty = "article-update" <;>
    simp_all [onMessage]

theorem step_no_up_when_up (s : NotifierState) (e : NotifierEvent) (h : s.socketUp = true) :
    Signal.statusUp ∉ (step s e).signals := by
  cases e with
  | close c =>
    rw [step_close]
    simp
    exact fun hq => (onClose_signal_ne_up s c) hq.symm
  | msg ty =>
    rw [step_msg]
    by_cases h1 : ty = "system" <;> by_cases h2 : ty = "global" <;>
      by_cases h3 : ty = "user" <;> by_cases h4 : ty = "article-update" <;>
      simp_all [onMessage]

theorem up_after_up_needs_close :
    ∀ (es : List NotifierEvent) (s : NotifierState) (n : Nat),
      s.socketUp = true → Signal.statusUp ∈ signalsAt s es n →
      ∃ k, k < n ∧ isCloseAt es k = true := by
  intro es
  induction es with
  | nil =>
    intro s n _ h
    simp [signalsAt] at h
  | cons e es ih =>
    intro s n hup h
    cases n with
    | zero => exact absurd h (step_no_up_when_up s e hup)
    | succ m =>
      cases e with
      | close c => exact ⟨0, Nat.succ_pos m, rfl⟩
      | msg ty =>
        have hup2 := step_msg_socketUp s ty hup
        obtain ⟨k, hk, hc⟩ := ih _ m hup2 h
        exact ⟨k + 1, Nat.succ_lt_succ hk, hc⟩

theorem up_twice_close_between :
    ∀ (es : List NotifierEvent) (s : NotifierState) (i j : Nat), i < j →
      Signal.statusUp ∈ signalsAt s es i → Signal.statusUp ∈ signalsAt s es j →
      ∃ k, i < k ∧ k < j ∧ isCloseAt es k = true := by
  intro es
  induction es with
  | nil =>
    intro s i j _ hi _
    simp [signalsAt] at hi
  | cons e es ih =>
    intro s i j hij hi hj
    cases i with
    | zero =>
      cases j with
      | zero => exact absurd hij (lt_irrefl 0)
      | succ m =>
        have h1 := (up_mem_step s e hi).1
        obtain ⟨k, hk, hc⟩ := up_after_up_needs_close es _ m h1 hj
        exact ⟨k + 1, Nat.succ_pos k, Nat.succ_lt_succ hk, hc⟩
    | succ i0 =>
      cases j with
      | zero => exact absurd hij (by omega)
      | succ j0 =>
        obtain ⟨k, hk1, hk2, hc⟩ := ih _ i0 j0 (by omega) hi hj
        exact ⟨k + 1, by omega, by omega, hc⟩

theorem up_needs_msgs :
    ∀ (es : List NotifierEvent) (s : NotifierState) (i : Nat),
      Signal.statusUp ∈ signalsAt s es i →
      (s.gotSystem = true ∨ hasMsg "system" (es.take (i + 1)) = true) ∧
      (s.gotArticles = true ∨ hasMsg "global" (es.take (i + 1)) = true) ∧
      (s.gotUser = true ∨ hasMsg "user" (es.take (i + 1)) = true) := by
  intro es
  induction es with
  | nil =>
    intro s i h
    simp [signalsAt] at h
  | cons e es ih =>
    intro s i h
    cases i with
    | zero =>
      have hflags := up_mem_step s e h
      have ht := step_state_flags s e
      refine ⟨?_, ?_, ?_⟩
      · rcases ht.1 hflags.2.1 with hs | rfl
        · exact Or.inl hs
        · exact Or.inr (by simp [hasMsg])
      · rcases ht.2.1 hflags.2.2.1 with hs | rfl
        · exact Or.inl hs
        · exact Or.inr (by simp [hasMsg])
      · rcases ht.2.2 hflags.2.2.2 with hs | rfl
        · exact Or.inl hs
        · exact Or.inr (by simp [hasMsg])
    | succ n =>
      have ihh := ih (step s e).state n h
      have ht := step_state_flags s e
      refine ⟨?_, ?_, ?_⟩
      · rcases ihh.1 with hS | hM
        · rcases ht.1 hS with hs | rfl
          · exact Or.inl hs
          · exact Or.inr (by simp [hasMsg])
        · exact Or.inr (by simp [hasMsg, List.any_cons] at hM ⊢; exact Or.inr hM)
      · rcases ihh.2.1 with hS | hM
        · rcases ht.2.1 hS with hs | rfl
          · exact Or.inl hs
          · exact Or.inr (by simp [hasMsg])
        · exact Or.inr (by simp [hasMsg, List.any_cons] at hM ⊢; exact Or.inr hM)
      · rcases ihh.2.2 with hS | hM
        · rcases ht.2.2 hS with hs | rfl
          · exact Or.inl hs
          · exact Or.inr (by simp [hasMsg])
        · exact Or.inr (by simp [hasMsg, List.any_cons] at hM ⊢; exact Or.inr hM)

/-! ## Claim theorems -/

/-- Claim C1: in every socket trace from the initial notifier state, STATUS_UP
is signalled at step i only when the first i+1 events contain a message of
each of the types system, global and user; and between any two STATUS_UP
signals there is a socket close, so STATUS_UP is signalled at most once per
up-transition. -/
theorem notifier_status_up_discipline :
    (∀ (es : List NotifierEvent) (i : Nat),
        Signal.statusUp ∈ signalsAt initialNotifier es i →
        hasMsg "system" (es.take (i + 1)) = true ∧
        hasMsg "global" (es.take (i + 1)) = true ∧
        hasMsg "user" (es.take (i + 1)) = true) ∧
    (∀ (es : List NotifierEvent) (i j : Nat), i < j →
        Signal.statusUp ∈ signalsAt initialNotifier es i →
        Signal.statusUp ∈ signalsAt initialNotifier es j →
        ∃ k, i < k ∧ k < j ∧ isCloseAt es k = true) := by
  constructor
  · intro es i h
    have h3 := up_needs_msgs es initialNotifier i h
    simpa [initialNotifier] using h3
  · intro es i j hij hi hj
    exact up_twice_close_between es initialNotifier i j hij hi hj

/-- Witness for C1 on the sample trace: STATUS_UP fires at steps 2 and 4,
the three message types precede step 2, and the close at step 3 separates
the two up-transitions. -/
theorem notifier_status_up_discipline_witness :
    (hasMsg "system" (demoTrace.take 3) = true ∧
     hasMsg "global" (demoTrace.take 3) = true ∧
     hasMsg "user" (demoTrace.take 3) = true) ∧
    (∃ k, 2 < k ∧ k < 4 ∧ isCloseAt demoTrace k = true) :=
  ⟨notifier_status_up_discipline.1 demoTrace 2 (by decide),
   notifier_status_up_discipline.2 demoTrace 2 4 (by decide) (by decide) (by decide)⟩

/-- Claim C2: each incoming message is dispatched to exactly one handler
determined by its type field: system, global, user and article-update go to
their respective handlers, and any other type is delivered to no handler. -/
theorem onmessage_dispatches_by_type (s : NotifierState) (ty : String) :
    (ty = "system" → (onMessage s ty).handlers = [HandlerCall.systemData]) ∧
    (ty = "global" → (onMessage s ty).handlers = [HandlerCall.allArticles]) ∧
    (ty = "user" → (onMessage s ty).handlers = [HandlerCall.perUser]) ∧
    (ty = "article-update" → (onMessage s ty).handlers = [HandlerCall.articleUpdate]) ∧
    (ty ∉ (["system", "global", "user", "article-update"] : List String) →
      (onMessage s ty).handlers = []) := by
  obtain ⟨gS, gA, gU, sU⟩ := s
  refine ⟨?_, ?_, ?_, ?_, ?_⟩
  · rintro rfl
    cases gS <;> cases gA <;> cases gU <;> cases sU <;> decide
  · rintro rfl
    cases gS <;> cases gA <;> cases gU <;> cases sU <;> decide
  · rintro rfl
    cases gS <;> cases gA <;> cases gU <;> cases sU <;> decide
  · rintro rfl
    cases gS <;> cases gA <;> cases gU <;> cases sU <;> decide
  · intro h
    have h1 : ¬ ty = "system" := fun hh => h (by simp [hh])
    have h2 : ¬ ty = "global" := fun hh => h (by simp [hh])
    have h3 : ¬ ty = "user" := fun hh => h (by simp [hh])
    have h4 : ¬ ty = "article-update" := fun hh => h (by simp [hh])
    cases gS <;> cases gA <;> cases gU <;> cases sU <;>
      simp [onMessage, h1, h2, h3, h4]

/-- Witness for C2: a system message reaches exactly the system handler, and
an unknown message type reaches no handler. -/
theorem onmessage_dispatches_by_type_witness :
    (onMessage initialNotifier "system").handlers = [HandlerCall.systemData] ∧
    (onMessage initialNotifier "bogus").handlers = [] :=
  ⟨(onmessage_dispatches_by_type initialNotifier "system").1 rfl,
   (onmessage_dispatches_by_type initialNotifier "bogus").2.2.2.2 (by decide)⟩

/-- Claim C3: connectNotifier runs the liveness check immediately and
registers it on a 10000 ms interval; every check reopens the connection
exactly when the socket is absent or not OPEN; ticks run the check while the
interval is registered and nothing after it is cleared; disconnectNotifier
cancels the interval and closes the socket. -/
theorem notifier_reconnect_loop (apiUrl token : String) (s : ConnState) :
    ((connectNotifier apiUrl token s).intervalPeriodMs = some 10000 ∧
     (connectNotifier apiUrl token s).ws = (checkSocketAlive apiUrl token s).ws) ∧
    (socketNeedsConnect s = true →
      (checkSocketAlive apiUrl token s).ws = some (newSocket apiUrl token)) ∧
    (socketNeedsConnect s = false → checkSocketAlive apiUrl token s = s) ∧
    (s.intervalPeriodMs.isSome = true →
      intervalTick apiUrl token s = checkSocketAlive apiUrl token s) ∧
    (s.intervalPeriodMs = none → intervalTick apiUrl token s = s) ∧
    ((disconnectNotifier s).intervalPeriodMs = none ∧
     ∀ w, s.ws = some w → (disconnectNotifier s).ws = some (closeSocket w)) := by
  refine ⟨⟨rfl, rfl⟩, ?_, ?_, ?_, ?_, rfl, ?_⟩
  · intro h
    simp [checkSocketAlive, h]
  · intro h
    simp [checkSocketAlive, h]
  · intro h
    rcases hp : s.intervalPeriodMs with _ | p
    · rw [hp] at h
      simp at h
    · simp [intervalTick, hp]
  · intro h
    simp [intervalTick, h]
  · intro w hw
    simp [disconnectNotifier, hw]

/-- Witness for C3 at concrete connection states: a missing socket is
reopened, an OPEN socket is left alone, ticks fire only while the interval
is registered, and disconnect closes the socket. -/
theorem notifier_reconnect_loop_witness :
    (checkSocketAlive "http://api" "tok" ⟨none, none⟩).ws =
      some (newSocket "http://api" "tok") ∧
    checkSocketAlive "http://api" "tok" ⟨some ⟨"u", WSReadyState.opened⟩, some 10000⟩ =
      ⟨some ⟨"u", WSReadyState.opened⟩, some 10000⟩ ∧
    intervalTick "http://api" "tok" ⟨some ⟨"u", WSReadyState.opened⟩, some 10000⟩ =
      checkSocketAlive "http://api" "tok" ⟨some ⟨"u", WSReadyState.opened⟩, some 10000⟩ ∧
    intervalTick "http://api" "tok" ⟨some ⟨"u", WSReadyState.opened⟩, none⟩ =
      ⟨some ⟨"u", WSReadyState.opened⟩, none⟩ ∧
    (disconnectNotifier ⟨some ⟨"u", WSReadyState.opened⟩, some 10000⟩).ws =
      some (closeSocket ⟨"u", WSReadyState.opened⟩) :=
  ⟨(notifier_reconnect_loop "http://api" "tok" ⟨none, none⟩).2.1 (by decide),
   (notifier_reconnect_loop "http://api" "tok" _).2.2.1 (by decide),
   (notifier_reconnect_loop "http://api" "tok" _).2.2.2.1 (by decide),
   (notifier_reconnect_loop "http://api" "tok" _).2.2.2.2.1 rfl,
   (notifier_reconnect_loop "http://api" "tok" _).2.2.2.2.2.2 _ rfl⟩

/-- Counterexample to claim C4 as stated: after a close with code 1005 the
handler signals STATUS_RESET but does not clear the socket reference, so the
clause that the socket reference is cleared on every close fails. -/
theorem onclose_1005_keeps_socket_reference :
    (onClose ⟨true, true, true, true⟩ 1005).signal = Signal.statusReset ∧
    (onClose ⟨true, true, true, true⟩ 1005).wsCleared = false := by
  decide

/-- Claim C4 (amended): every close signals exactly one status — 1005 gives
STATUS_RESET, otherwise STATUS_RESET when no system, global or user message
was ever received and STATUS_DOWN else; the socket reference is cleared
exactly in the non-1005 cases; after either a cleared reference or a closed
socket the liveness check will attempt a reconnect. -/
theorem onclose_status_determination (s : NotifierState) (code : Nat) :
    ((step s (NotifierEvent.close code)).signals).length = 1 ∧
    (code = 1005 → (onClose s code).signal = Signal.statusReset ∧
      (onClose s code).wsCleared = false) ∧
    (code ≠ 1005 → s.gotSystem = false → s.gotArticles = false → s.gotUser = false →
      (onClose s code).signal = Signal.statusReset) ∧
    (code ≠ 1005 →
      (s.gotSystem = true ∨ s.gotArticles = true ∨ s.gotUser = true) →
      (onClose s code).signal = Signal.statusDown) ∧
    (code ≠ 1005 → (onClose s code).wsCleared = true ∧
      (onClose s code).state.socketUp = false) ∧
    (∀ p, socketNeedsConnect ⟨none, p⟩ = true) ∧
    (∀ u p, socketNeedsConnect ⟨some ⟨u, WSReadyState.closed⟩, p⟩ = true) := by
  obtain ⟨gS, gA, gU, sU⟩ := s
  refine ⟨rfl, ?_, ?_, ?_, ?_, fun p => rfl, fun u p => rfl⟩
  · rintro rfl
    exact ⟨rfl, rfl⟩
  · intro hc h1 h2 h3
    subst h1
    subst h2
    subst h3
    simp [onClose, hc]
  · intro hc h
    cases gS <;> cases gA <;> cases gU <;> simp_all [onClose, hc]
  · intro hc
    cases gS <;> cases gA <;> cases gU <;> simp [onClose, hc]

/-- Witness for C4 (amended) at concrete states and close codes. -/
theorem onclose_status_determination_witness :
    ((onClose ⟨true, false, false, true⟩ 1005).signal = Signal.statusReset ∧
      (onClose ⟨true, false, false, true⟩ 1005).wsCleared = false) ∧
    (onClose ⟨false, false, false, true⟩ 1006).signal = Signal.statusReset ∧
    (onClose ⟨true, false, false, true⟩ 1000).signal = Signal.statusDown ∧
    ((onClose ⟨true, false, false, true⟩ 1000).wsCleared = true ∧
      (onClose ⟨true, false, false, true⟩ 1000).state.socketUp = false) :=
  ⟨(onclose_status_determination ⟨true, false, false, true⟩ 1005).2.1 rfl,
   (onclose_status_determination ⟨false, false, false, true⟩ 1006).2.2.1 (by decide) rfl rfl rfl,
   (onclose_status_determination ⟨true, false, false, true⟩ 1000).2.2.2.1 (by decide) (Or.inl rfl),
   (onclose_status_determination ⟨true, false, false, true⟩ 1000).2.2.2.2.1 (by decide)⟩

/-! ## Comment action lemmas -/

theorem makeCommentAction_nil (apiUrl path : String) :
    makeCommentAction apiUrl path [] = none := rfl

theorem makeCommentAction_some (apiUrl path : String) (ids : List String) (h : ids ≠ []) :
    makeCommentAction apiUrl path ids =
      some ⟨HttpMethod.post, serviceURL apiUrl "commentActions" (some path) none, ids, true⟩ := by
  have hl : ¬ ids.length ≤ 0 := by
    cases ids with
    | nil => exact absurd rfl h
    | cons a l => simp
  simp [makeCommentAction, hl]

/-- Counterexample to claim C5 as stated: the reset batch action issues a
comment-action request on the endpoint reset, which is none of approve,
reject, defer, highlight. -/
theorem reset_endpoint_outside_four :
    resetCommentsRequest "" ["c1"] =
      some ⟨HttpMethod.post, "/services/commentActions/reset", ["c1"], true⟩ ∧
    ("/reset" ∉ (["/approve", "/reject", "/defer", "/highlight"] : List String)) := by
  decide

/-- Claim C5 (amended): every comment-action request the data service can
issue goes to one of the ten batch endpoints highlight, reset, approve,
approve-flags, resolve-flags, defer, reject, reject-flags, tag and
tagCommentSummaryScores; the four outcomes approve, reject, defer and
highlight are among them but the set is not limited to those four. -/
theorem comment_action_endpoint_set (apiUrl : String) (ids : List String) (tagId : String) :
    (∀ o ∈ commentActionRequests apiUrl ids tagId, ∀ r, o = some r →
      r.url ∈ (commentActionPaths tagId).map
        (fun p => serviceURL apiUrl "commentActions" (some p) none)) ∧
    ("/approve" ∈ commentActionPaths tagId ∧ "/reject" ∈ commentActionPaths tagId ∧
     "/defer" ∈ commentActionPaths tagId ∧ "/highlight" ∈ commentActionPaths tagId) := by
  constructor
  · intro o ho r hr
    cases ids with
    | nil =>
      simp [commentActionRequests, highlightCommentsRequest, resetCommentsRequest,
        approveCommentsRequest, approveFlagsAndCommentsRequest, resolveFlagsRequest,
        deferCommentsRequest, rejectCommentsRequest, rejectFlagsAndCommentsRequest,
        tagCommentsRequest, tagCommentSummaryScoresRequest, makeCommentAction_nil] at ho
      rw [ho] at hr
      simp at hr
    | cons a l =>
      simp [commentActionRequests, highlightCommentsRequest, resetCommentsRequest,
        approveCommentsRequest, approveFlagsAndCommentsRequest, resolveFlagsRequest,
        deferCommentsRequest, rejectCommentsRequest, rejectFlagsAndCommentsRequest,
        tagCommentsRequest, tagCommentSummaryScoresRequest, makeCommentAction_some] at ho
      rcases ho with rfl | rfl | rfl | rfl | rfl | rfl | rfl | rfl | rfl | rfl <;>
        (simp only [Option.some.injEq] at hr; subst hr; simp [commentActionPaths])
  · refine ⟨?_, ?_, ?_, ?_⟩ <;> simp [commentActionPaths]

/-- Witness for C5 (amended): the concrete reset request URL is among the ten
endpoint URLs, and the approve endpoint is in the set. -/
theorem comment_action_endpoint_set_witness :
    (⟨HttpMethod.post, serviceURL "http://api" "commentActions" (some "/reset") none,
      ["c1"], true⟩ : ActionRequest).url ∈
      (commentActionPaths "5").map
        (fun p => serviceURL "http://api" "commentActions" (some p) none) ∧
    "/approve" ∈ commentActionPaths "5" :=
  ⟨(comment_action_endpoint_set "http://api" ["c1"] "5").1
      (resetCommentsRequest "http://api" ["c1"]) (by decide) _ (by decide),
   (comment_action_endpoint_set "http://api" ["c1"] "5").2.1⟩

/-- Claim C9: each of the ten batch comment-action entry points issues no
request at all on an empty id list, and exactly one POST carrying all the
ids (with runImmediately set) on a non-empty list. -/
theorem batch_comment_actions_empty_or_single_post (apiUrl : String) (ids : List String)
    (tagId : String) :
    (ids = [] → ∀ o ∈ commentActionRequests apiUrl ids tagId, o = none) ∧
    (ids ≠ [] → ∀ o ∈ commentActionRequests apiUrl ids tagId,
      ∃ r, o = some r ∧ r.method = HttpMethod.post ∧ r.data = ids ∧
        r.runImmediately = true) := by
  constructor
  · rintro rfl o ho
    simp [commentActionRequests, highlightCommentsRequest, resetCommentsRequest,
      approveCommentsRequest, approveFlagsAndCommentsRequest, resolveFlagsRequest,
      deferCommentsRequest, rejectCommentsRequest, rejectFlagsAndCommentsRequest,
      tagCommentsRequest, tagCommentSummaryScoresRequest, makeCommentAction_nil] at ho
    exact ho
  · intro h o ho
    simp [commentActionRequests, highlightCommentsRequest, resetCommentsRequest,
      approveCommentsRequest, approveFlagsAndCommentsRequest, resolveFlagsRequest,
      deferCommentsRequest, rejectCommentsRequest, rejectFlagsAndCommentsRequest,
      tagCommentsRequest, tagCommentSummaryScoresRequest, makeCommentAction_some, h] at ho
    rcases ho with rfl | rfl | rfl | rfl | rfl | rfl | rfl | rfl | rfl | rfl <;>
      exact ⟨_, rfl, rfl, rfl, rfl⟩

/-- Witness for C9: the empty list issues nothing; a two-element list issues
one POST carrying both ids. -/
theorem batch_comment_actions_witness :
    (∀ o ∈ commentActionRequests "http://api" [] "5", o = none) ∧
    (∃ r, highlightCommentsRequest "http://api" ["c1", "c2"] = some r ∧
      r.method = HttpMethod.post ∧ r.data = ["c1", "c2"] ∧ r.runImmediately = true) :=
  ⟨(batch_comment_actions_empty_or_single_post "http://api" [] "5").1 rfl,
   (batch_comment_actions_empty_or_single_post "http://api" ["c1", "c2"] "5").2 (by decide)
     (highlightCommentsRequest "http://api" ["c1", "c2"]) (by decide)⟩

/-! ## URL lemmas -/

theorem connectionURL_eq (apiUrl token : String) :
    connectionURL apiUrl token =
      replaceHttpWs (apiUrl ++ ("/services" ++ ("/" ++ ("updates/summary/?token=" ++ token)))) := by
  unfold connectionURL serviceURL serializeParams SERVICES_URL
  congr 1
  apply String.ext
  simp [String.data_append, List.append_assoc]

theorem replaceHttpWs_http (x : String) : replaceHttpWs ("http://" ++ x) = "ws://" ++ x := rfl

theorem replaceHttpWs_https (x : String) : replaceHttpWs ("https://" ++ x) = "wss://" ++ x := rfl

/-- Claim C7: the notifier socket URL is the updates/summary service URL with
the stored token as the token query parameter and the scheme rewritten from
http to ws and from https to wss; every socket the notifier opens uses it. -/
theorem websocket_url_authenticated (rest token : String) :
    connectionURL ("http://" ++ rest) token =
      "ws://" ++ rest ++ "/services/updates/summary/?token=" ++ token ∧
    connectionURL ("https://" ++ rest) token =
      "wss://" ++ rest ++ "/services/updates/summary/?token=" ++ token ∧
    (newSocket ("http://" ++ rest) token).url = connectionURL ("http://" ++ rest) token := by
  refine ⟨?_, ?_, rfl⟩
  · rw [connectionURL_eq, String.append_assoc, replaceHttpWs_http]
    apply String.ext
    simp [String.data_append, List.append_assoc]
  · rw [connectionURL_eq, String.append_assoc, replaceHttpWs_https]
    apply String.ext
    simp [String.data_append, List.append_assoc]

/-- Claim C8: createModel, updateModel and destroyModel fail without issuing
any request exactly when the model name is not among the nine valid names,
and proceed to their request for every valid name. -/
theorem model_crud_validates_name (apiUrl ty id : String) (model : List (String × String))
    (onlyAttributes : Option (List String)) :
    (VALID_MODEL_NAMES.contains ty = false →
      issuesRequest (createModel apiUrl ty model) = false ∧
      issuesRequest (updateModel apiUrl ty id model onlyAttributes) = false ∧
      issuesRequest (destroyModel apiUrl ty id) = false) ∧
    (VALID_MODEL_NAMES.contains ty = true →
      issuesRequest (createModel apiUrl ty model) = true ∧
      issuesRequest (updateModel apiUrl ty id model onlyAttributes) = true ∧
      issuesRequest (destroyModel apiUrl ty id) = true) := by
  constructor <;> intro h
  · have hm : ty ∉ VALID_MODEL_NAMES := by simpa using h
    refine ⟨?_, ?_, ?_⟩ <;>
      simp [createModel, updateModel, destroyModel, validateModelName, listURL, modelURL,
        issuesRequest, hm, Except.bind, Except.map]
  · have hm : ty ∈ VALID_MODEL_NAMES := by simpa using h
    refine ⟨?_, ?_, ?_⟩ <;>
      simp [createModel, updateModel, destroyModel, validateModelName, listURL, modelURL,
        issuesRequest, hm, Except.bind, Except.map]

/-- Witness for C8: an invalid name issues no request in any of the three
operations; the valid name articles issues all three. -/
theorem model_crud_validates_name_witness :
    (issuesRequest (createModel "http://api" "bogus" [("x", "1")]) = false ∧
     issuesRequest (updateModel "http://api" "bogus" "9" [("x", "1")] none) = false ∧
     issuesRequest (destroyModel "http://api" "bogus" "9") = false) ∧
    (issuesRequest (createModel "http://api" "articles" [("x", "1")]) = true ∧
     issuesRequest (updateModel "http://api" "articles" "9" [("x", "1")] none) = true ∧
     issuesRequest (destroyModel "http://api" "articles" "9") = true) :=
  ⟨(model_crud_validates_name "http://api" "bogus" "9" [("x", "1")] none).1 (by decide),
   (model_crud_validates_name "http://api" "articles" "9" [("x", "1")] none).2 (by decide)⟩

/-- Claim C10: ArticleModel nulls a non-empty url that starts with neither
http nor https scheme, passes through a url that has a proper scheme or is
empty, and never changes any field other than url. -/
theorem article_model_sanitizes_url (a : ArticleRec) :
    (∀ u, a.url = some u → u ≠ "" →
      strStartsWith u "http://" = false → strStartsWith u "https://" = false →
      (ArticleModel a).url = none) ∧
    (∀ u, a.url = some u →
      (strStartsWith u "http://" = true ∨ strStartsWith u "https://" = true ∨ u = "") →
      ArticleModel a = a) ∧
    { ArticleModel a with url := none } = { a with url := none } := by
  refine ⟨?_, ?_, ?_⟩
  · intro u hu hne h1 h2
    simp [ArticleModel, hu, h1, h2, hne]
  · intro u hu h
    rcases h with h1 | h1 | h1 <;> simp [ArticleModel, hu, h1]
  · rcases hu : a.url with _ | u
    · simp [ArticleModel, hu]
    · simp only [ArticleModel, hu]
      split_ifs <;> rfl

/-- Witness for C10: the unsafe sample url is nulled; the https sample
article passes through unchanged. -/
theorem article_model_sanitizes_url_witness :
    (ArticleModel demoArticle).url = none ∧
    ArticleModel demoArticleSafe = demoArticleSafe :=
  ⟨(article_model_sanitizes_url demoArticle).1 "javascript:alert(1)" rfl
      (by decide) (by decide) (by decide),
   (article_model_sanitizes_url demoArticleSafe).2.1 "https://example.com/a" rfl
      (Or.inr (Or.inl (by decide)))⟩

/-! ## Article count lemmas -/

theorem countP_set_add {α : Type} (p : α → Bool) :
    ∀ (cs : List α) (i : Nat) (c : α) (h : i < cs.length),
      (cs.set i c).countP p + (if p (cs.get ⟨i, h⟩) then 1 else 0) =
        cs.countP p + (if p c then 1 else 0) := by
  intro cs
  induction cs with
  | nil =>
    intro i c h
    simp at h
  | cons a tl ih =>
    intro i c h
    cases i with
    | zero =>
      simp only [List.set_cons_zero, List.countP_cons, List.get_cons_zero]
      by_cases hpc : p c <;> by_cases hpa : p a <;> simp [hpc, hpa]
    | succ j =>
      have hj : j < tl.length := by simpa using h
      have hrec := ih j c hj
      simp only [List.set_cons_succ, List.countP_cons, List.get_cons_succ]
      omega

theorem reachable_counts_eq (s : ArticleCountsState) (hs : ReachableArticle s) :
    ∀ k, s.counts k = countsOf s.comments k := by
  induction hs with
  | init =>
    intro k
    rfl
  | step s t hs hev ih =>
    cases hev with
    | newComment c =>
      intro k
      simp [addContrib, countsOf, List.countP_cons, ih k]
    | setComment i c h =>
      intro k
      have hset := countP_set_add (countPred k) s.comments i c h
      have ihk := ih k
      simp only [subContrib, addContrib, countsOf] at *
      omega

theorem countsOf_all (cs : List ModComment) : countsOf cs CountKind.all = cs.length := by
  induction cs with
  | nil => rfl
  | cons c tl ih =>
    simp [countsOf, List.countP_cons, countPred] at ih ⊢

theorem countsOf_partition (cs : List ModComment) :
    countsOf cs CountKind.unprocessed + countsOf cs CountKind.unmoderated +
      countsOf cs CountKind.moderated = countsOf cs CountKind.all ∧
    countsOf cs CountKind.approved + countsOf cs CountKind.rejected +
      countsOf cs CountKind.deferred + countsOf cs CountKind.highlighted =
      countsOf cs CountKind.moderated := by
  induction cs with
  | nil => exact ⟨rfl, rfl⟩
  | cons c tl ih =>
    rcases c with ⟨st, fl, bt, au⟩
    simp only [countsOf, List.countP_cons, countPred] at ih ⊢
    cases st <;> simp [stateModerated] <;> omega

/-- Claim C6 (spec-modelled): in every reachable article state the stored
per-status counts equal the number of the article's comments in the
corresponding state, allCount is the number of comments, and the counts sum
consistently: unprocessed, unmoderated and moderated partition allCount, and
the four decided statuses partition moderatedCount. -/
theorem article_counts_invariant (s : ArticleCountsState) (hs : ReachableArticle s) :
    (∀ k, s.counts k = countsOf s.comments k) ∧
    s.counts CountKind.all = s.comments.length ∧
    s.counts CountKind.unprocessed + s.counts CountKind.unmoderated +
      s.counts CountKind.moderated = s.counts CountKind.all ∧
    s.counts CountKind.approved + s.counts CountKind.rejected +
      s.counts CountKind.deferred + s.counts CountKind.highlighted =
      s.counts CountKind.moderated := by
  have hc := reachable_counts_eq s hs
  have hp := countsOf_partition s.comments
  refine ⟨hc, ?_, ?_, ?_⟩
  · rw [hc]
    exact countsOf_all s.comments
  · simp only [hc]
    exact hp.1
  · simp only [hc]
    exact hp.2

/-- Witness for C6: the invariant holds at the reachable state with one
freshly arrived comment. -/
theorem article_counts_invariant_witness :
    (∀ k, demoArticleState.counts k = countsOf demoArticleState.comments k) ∧
    demoArticleState.counts CountKind.all = demoArticleState.comments.length ∧
    demoArticleState.counts CountKind.unprocessed +
      demoArticleState.counts CountKind.unmoderated +
      demoArticleState.counts CountKind.moderated = demoArticleState.counts CountKind.all ∧
    demoArticleState.counts CountKind.approved + demoArticleState.counts CountKind.rejected +
      demoArticleState.counts CountKind.deferred +
      demoArticleState.counts CountKind.highlighted =
      demoArticleState.counts CountKind.moderated :=
  article_counts_invariant demoArticleState
    (ReachableArticle.step _ _ ReachableArticle.init
      (ArticleEvolves.newComment ⟨[], fun _ => 0⟩ ⟨CommentState.unprocessed, false, false, false⟩))

end Osmod
